import Mathlib

/-!
Shallow embedding of the camera abstraction layer:
`Software/Interface/camera_interface.py` (data types, exceptions, abstract
interface), `Software/Drivers/opencv_camera.py` (the OpenCV-backed driver),
and `Software/Config/camera_factory.py` (the backend factory).

Modelling conventions:
- Python exceptions become an explicit error type `PyErr`; a method that can
  raise returns `Except PyErr _`, and a method that also mutates `self`
  returns the post-state alongside the result (Python leaves the object
  mutated as far as execution got before the raise).
- The external cv2.VideoCapture device is modelled by explicit inputs:
  whether `VideoCapture(index)` opens (`devOpens : Bool`), and a stream of
  read results `src : Nat -> Option NDArray` (`none` = `ok` was false).
- Wall-clock readings of `time.monotonic()` are a sequence `clock : Nat -> Rat`.
- The unbounded `while True` retry loop in `read` is fuel-indexed: outcome
  `running` means the loop has not terminated within the given fuel.
-/

namespace CameraSpec

/-- Image resolution in pixels (`Resolution` dataclass, frozen). -/
structure Resolution where
  width : Int
  height : Int
deriving DecidableEq, Repr

/-- A numpy ndarray buffer, abstracted to its shape (the only aspect the
driver inspects: `h, w, c = frame.shape`). -/
structure NDArray where
  shape : List Nat
deriving DecidableEq, Repr

/-- Normalized frame data structure (`Frame` dataclass). -/
structure Frame where
  data : NDArray
  width : Nat
  height : Nat
  channels : Nat
  pixel_format : String
  timestamp : Rat
deriving DecidableEq, Repr

/-- Generic camera configuration object (`CameraConfig` dataclass). Floats
are modelled as rationals; optional fields as `Option`. -/
structure CameraConfig where
  resolution : Resolution
  framerate : Rat
  pixel_format : String
  rotation_deg : Int
  hflip : Bool
  vflip : Bool
  auto_exposure : Bool
  exposure_time_us : Option Int
  iso : Option Int
  auto_white_balance : Bool
  white_balance_gain_r : Option Rat
  white_balance_gain_b : Option Rat
  auto_focus : Bool
  focus_distance_m : Option Rat
  roi_norm : Option (Rat × Rat × Rat × Rat)
deriving DecidableEq, Repr

/-- The dataclass field defaults of `CameraConfig()`. -/
def CameraConfig.mkDefault : CameraConfig where
  resolution := { width := 1280, height := 720 }
  framerate := 30
  pixel_format := "BGR"
  rotation_deg := 0
  hflip := false
  vflip := false
  auto_exposure := true
  exposure_time_us := none
  iso := none
  auto_white_balance := true
  white_balance_gain_r := none
  white_balance_gain_b := none
  auto_focus := true
  focus_distance_m := none
  roi_norm := none

/-- Python-level errors raised by this codebase: the camera error taxonomy
(`CameraOpenError`, `CameraStateError`, `CameraTimeout` from
camera_interface.py) plus interpreter/stdlib errors the code can surface
(`ValueError` from tuple unpacking, `ImportError` / `AttributeError` from
dynamic driver resolution, `TypeError` from the factory conformance check). -/
inductive PyErr where
  | cameraOpenError (msg : String)
  | cameraStateError (msg : String)
  | cameraTimeout (msg : String)
  | valueError (msg : String)
  | importError (msg : String)
  | attributeError (msg : String)
  | typeError (msg : String)
deriving DecidableEq, Repr

/-- Whether an error belongs to the contract's own `CameraError` taxonomy
(open failure, state error, timeout). -/
def PyErr.isCameraError : PyErr → Bool
  | .cameraOpenError _ => true
  | .cameraStateError _ => true
  | .cameraTimeout _ => true
  | _ => false

/-- A cv2.VideoCapture handle: the only aspect the driver branches on is
`isOpened()`. A handle object is truthy in Python regardless of `opened`. -/
structure VideoCapture where
  opened : Bool
deriving DecidableEq, Repr

/-- State of an `OpenCVCamera` instance: `__init__` fields plus the class
attributes `_is_open`, `_is_streaming`, `_current_config` inherited from
`CameraInterface`. -/
structure OpenCVCamera where
  device_index : Int
  _capture : Option VideoCapture
  is_open : Bool
  is_streaming : Bool
  current_config : CameraConfig
deriving DecidableEq, Repr

/-- `OpenCVCamera.__init__(device_index)`. -/
def OpenCVCamera.init (device_index : Int) : OpenCVCamera where
  device_index := device_index
  _capture := none
  is_open := false
  is_streaming := false
  current_config := CameraConfig.mkDefault

def notStreamingMsg : String := "Camera is not streaming."

def notOpenMsg : String := "Camera not open."

def openFailMsg : String := "Failed to open camera index"

def readTimeoutMsg : String := "Frame read timed out."

def captureFailMsg : String := "Failed to capture frame."

def shapeUnpackMsg : String := "cannot unpack ndarray shape into h, w, c"

/-- The Python tuple unpacking `h, w, c = shape`: succeeds exactly when the
shape has three components, otherwise the interpreter raises `ValueError`. -/
def unpack3 : List Nat → Except PyErr (Nat × Nat × Nat)
  | [a, b, c] => Except.ok (a, b, c)
  | _ => Except.error (PyErr.valueError shapeUnpackMsg)

/-- `OpenCVCamera.set_config(config)`: raises `CameraStateError` when
`self._capture` is falsy (i.e. `None`); otherwise issues the width/height/fps
property writes on the handle (return values ignored, no modelled effect),
stores the request as `_current_config`, and returns it. -/
def OpenCVCamera.set_config (cam : OpenCVCamera) (config : CameraConfig) :
    OpenCVCamera × Except PyErr CameraConfig :=
  match cam._capture with
  | none => (cam, Except.error (PyErr.cameraStateError notOpenMsg))
  | some _ =>
    let cam1 : OpenCVCamera := { cam with current_config := config }
    (cam1, Except.ok cam1.current_config)

/-- `OpenCVCamera.open(config=None)`: no-op if already open; otherwise
assigns `self._capture = cv2.VideoCapture(index)` (whose `isOpened()` result
is the external input `devOpens`), raises `CameraOpenError` when not opened
— note `_capture` keeps the dead handle — then marks open and applies the
given config via `set_config`, or adopts `CameraConfig()`. -/
def OpenCVCamera.openDev (cam : OpenCVCamera) (devOpens : Bool)
    (config : Option CameraConfig) : OpenCVCamera × Except PyErr Unit :=
  if cam.is_open then (cam, Except.ok ())
  else
    let cam1 : OpenCVCamera := { cam with _capture := some { opened := devOpens } }
    if devOpens = false then
      (cam1, Except.error (PyErr.cameraOpenError openFailMsg))
    else
      let cam2 : OpenCVCamera := { cam1 with is_open := true }
      match config with
      | some c =>
        let r := cam2.set_config c
        (r.1, r.2.map fun _ => ())
      | none =>
        ({ cam2 with current_config := CameraConfig.mkDefault }, Except.ok ())

/-- `OpenCVCamera.close()`: releases the handle, sets `_capture = None`,
clears both state flags. The body has no raise path, so it is a total
state-to-state function. -/
def OpenCVCamera.close (cam : OpenCVCamera) : OpenCVCamera :=
  { cam with _capture := none, is_open := false, is_streaming := false }

/-- `OpenCVCamera.start_stream()`. -/
def OpenCVCamera.start_stream (cam : OpenCVCamera) :
    OpenCVCamera × Except PyErr Unit :=
  if cam.is_open = false then
    (cam, Except.error (PyErr.cameraStateError "Cannot start stream: camera not open."))
  else
    ({ cam with is_streaming := true }, Except.ok ())

/-- `OpenCVCamera.stop_stream()`: a bare flag assignment, no raise path. -/
def OpenCVCamera.stop_stream (cam : OpenCVCamera) : OpenCVCamera :=
  { cam with is_streaming := false }

instance {ε α : Type} [DecidableEq ε] [DecidableEq α] : DecidableEq (Except ε α) :=
  fun x y =>
    match x, y with
    | Except.ok a, Except.ok b =>
      if h : a = b then isTrue (by rw [h]) else isFalse (by simp [h])
    | Except.error a, Except.error b =>
      if h : a = b then isTrue (by rw [h]) else isFalse (by simp [h])
    | Except.ok _, Except.error _ => isFalse (by simp)
    | Except.error _, Except.ok _ => isFalse (by simp)

/-- Outcome of the fuel-indexed `read` retry loop: either the call finished
with a result, or the loop is still running after the given fuel. -/
inductive ReadOutcome where
  | result (r : Except PyErr Frame)
  | running
deriving DecidableEq, Repr

/-- The timeout test `timeout is not None and (monotonic() - start) > timeout`. -/
def shouldTimeout : Option Rat → Rat → Bool
  | none, _ => false
  | some t, elapsed => decide (t < elapsed)

/-- The `while True` body of `OpenCVCamera.read`: at iteration `i` attempt
`self._capture.read()` (= `src i`); on success build the `Frame` from the
unpacked shape, stamped `clock i`; on failure raise `CameraTimeout` when the
elapsed time exceeds the timeout, else retry. -/
def readLoopAux (src : Nat → Option NDArray) (clock : Nat → Rat) (start : Rat)
    (timeout : Option Rat) : Nat → Nat → ReadOutcome
  | 0, _ => ReadOutcome.running
  | Nat.succ fuel, i =>
    match src i with
    | some buf =>
      match unpack3 buf.shape with
      | Except.ok (h, w, c) =>
        ReadOutcome.result (Except.ok
          { data := buf, width := w, height := h, channels := c,
            pixel_format := "BGR", timestamp := clock i })
      | Except.error e => ReadOutcome.result (Except.error e)
    | none =>
      if shouldTimeout timeout (clock i - start) then
        ReadOutcome.result (Except.error (PyErr.cameraTimeout readTimeoutMsg))
      else
        readLoopAux src clock start timeout fuel (i + 1)

/-- The default value of `read`'s `timeout` parameter in the source:
`timeout: float | None = 2.0`. -/
def readDefaultTimeout : Option Rat := some 2

/-- `OpenCVCamera.read(timeout)`: raises `CameraStateError` when not
streaming or the handle is `None`; otherwise records `start = monotonic()`
(= `clock 0`) and enters the retry loop (iterations numbered from 1). -/
def OpenCVCamera.read (cam : OpenCVCamera) (src : Nat → Option NDArray)
    (clock : Nat → Rat) (timeout : Option Rat) (fuel : Nat) : ReadOutcome :=
  if cam.is_streaming = false ∨ cam._capture = none then
    ReadOutcome.result (Except.error (PyErr.cameraStateError notStreamingMsg))
  else
    readLoopAux src clock (clock 0) timeout fuel 1

/-- `OpenCVCamera.flush()`: returns the number of `grab()` calls issued —
`0` when `self._capture` is falsy (early return), else `5`. No raise path. -/
def OpenCVCamera.flush (cam : OpenCVCamera) : Nat :=
  match cam._capture with
  | none => 0
  | some _ => 5

/-- `OpenCVCamera.capture(path=None)` (single still): raises
`CameraStateError` unless open with a handle; raises `CameraTimeout` when
the one-shot `self._capture.read()` (= `devRead`) fails; otherwise unpacks
the shape and returns the `Frame` stamped `now`. Writing the optional path
is an external side effect, not modelled. -/
def OpenCVCamera.capture1 (cam : OpenCVCamera) (devRead : Option NDArray)
    (now : Rat) : Except PyErr Frame :=
  if cam.is_open = false ∨ cam._capture = none then
    Except.error (PyErr.cameraStateError notOpenMsg)
  else
    match devRead with
    | none => Except.error (PyErr.cameraTimeout captureFailMsg)
    | some buf =>
      match unpack3 buf.shape with
      | Except.error e => Except.error e
      | Except.ok (h, w, c) =>
        Except.ok { data := buf, width := w, height := h, channels := c,
                    pixel_format := "BGR", timestamp := now }

/-- `capabilities()["controls"]["exposure"]`. -/
structure ExposureCaps where
  auto : Bool
  manual : Bool
deriving DecidableEq, Repr

/-- `capabilities()["controls"]["wb"]`. -/
structure WBCaps where
  auto : Bool
  manual_gains : Bool
deriving DecidableEq, Repr

/-- `capabilities()["controls"]["focus"]`. -/
structure FocusCaps where
  auto : Bool
  manual_distance : Bool
deriving DecidableEq, Repr

/-- The capability dictionary returned by `OpenCVCamera.capabilities()`. -/
structure Capabilities where
  resolutions : List (Int × Int)
  pixel_formats : List String
  exposure : ExposureCaps
  wb : WBCaps
  focus : FocusCaps
  roi_supported : Bool
deriving DecidableEq, Repr

/-- The literal dictionary in `OpenCVCamera.capabilities`. -/
def openCVCaps : Capabilities where
  resolutions := [(640, 480), (1280, 720), (1920, 1080)]
  pixel_formats := ["BGR"]
  exposure := { auto := true, manual := false }
  wb := { auto := true, manual_gains := false }
  focus := { auto := false, manual_distance := false }
  roi_supported := false

/-- `OpenCVCamera.capabilities()`: raises `CameraStateError` when
`self._capture` is falsy, else returns the static dictionary. -/
def OpenCVCamera.capabilities (cam : OpenCVCamera) : Except PyErr Capabilities :=
  match cam._capture with
  | none => Except.error (PyErr.cameraStateError notOpenMsg)
  | some _ => Except.ok openCVCaps

/-- A driver class object obtained by `getattr(module, class_name)`; the flag
records whether instances it constructs satisfy
`isinstance(_, CameraInterface)`. -/
structure DriverClass where
  isCameraInterface : Bool
deriving DecidableEq, Repr

/-- The object produced by `driver_class(**CAMERA_HARDWARE_CONFIG)`. -/
structure CameraObj where
  cls : DriverClass
deriving DecidableEq, Repr

/-- A Python module as seen through `getattr`. -/
structure PyModule where
  attrs : String → Option DriverClass

/-- The import environment seen by `importlib.import_module`. -/
structure PyEnv where
  modules : String → Option PyModule

/-- Split a character list at its last dot, if any: returns the characters
before and after that dot. -/
def lastDotSplit : List Char → Option (List Char × List Char)
  | [] => none
  | c :: rest =>
    match lastDotSplit rest with
    | some (a, b) => some (c :: a, b)
    | none => if c = '.' then some ([], rest) else none

/-- Python's `s.rsplit(".", 1)`: split at most once, at the last dot. -/
def rsplitDot1 (s : String) : List String :=
  match lastDotSplit s.data with
  | none => [s]
  | some (a, b) => [String.mk a, String.mk b]

/-- Whether a dotted driver key resolves to a class in the environment. -/
def resolves (env : PyEnv) (key : String) : Option DriverClass :=
  match rsplitDot1 key with
  | [module_path, class_name] =>
    match env.modules module_path with
    | none => none
    | some m => m.attrs class_name
  | _ => none

namespace CameraFactory

/-- `CameraFactory.create()`: rsplit the configured driver key (a failed
unpack raises `ValueError`), import the module (`ImportError` when missing),
`getattr` the class (`AttributeError` when missing), construct the driver,
and raise `TypeError` unless the instance is a `CameraInterface`. The key,
`ACTIVE_CAMERA_DRIVER` in the source, and the import environment are inputs
of the model. The first component counts constructor invocations. -/
def create (env : PyEnv) (key : String) : Nat × Except PyErr CameraObj :=
  match rsplitDot1 key with
  | [module_path, class_name] =>
    match env.modules module_path with
    | none => (0, Except.error (PyErr.importError module_path))
    | some m =>
      match m.attrs class_name with
      | none => (0, Except.error (PyErr.attributeError class_name))
      | some driver_class =>
        let camera : CameraObj := { cls := driver_class }
        if camera.cls.isCameraInterface = false then
          (1, Except.error (PyErr.typeError "does not implement CameraInterface"))
        else
          (1, Except.ok camera)
  | _ => (0, Except.error (PyErr.valueError "not enough values to unpack"))

end CameraFactory

/-- The driver key configured in camera_factory.py. -/
def ACTIVE_CAMERA_DRIVER : String := "Software.Drivers.opencv_camera.OpenCVCamera"

/-! Concrete states used by witnesses and counterexamples. -/

/-- An import environment with no resolvable modules. -/
def emptyEnv : PyEnv where
  modules := fun _ => none

/-- The state after a successful `open()` with no config on a fresh camera. -/
def openedCam : OpenCVCamera := ((OpenCVCamera.init 0).openDev true none).1

/-- The state after a failed `open()` on a fresh camera: the dead handle is
left in `_capture`, the open flag stays false. -/
def failedOpenCam : OpenCVCamera := ((OpenCVCamera.init 0).openDev false none).1

/-- `openedCam` after `start_stream()`. -/
def streamingCam : OpenCVCamera := (openedCam.start_stream).1

/-- A request no OpenCV backend capability covers: a resolution outside the
advertised list, a rotation, and an ROI although `roi_supported` is false. -/
def unsupportedReq : CameraConfig :=
  { CameraConfig.mkDefault with
      resolution := { width := 123, height := 45 }
      rotation_deg := 90
      roi_norm := some (0, 0, 1, 1) }

/-! Helper lemmas shared by the claim theorems. -/

theorem unpack3_ok {l : List Nat} {h w c : Nat}
    (he : unpack3 l = Except.ok (h, w, c)) : l = [h, w, c] := by
  match l, he with
  | [a, b, d], he =>
    simp only [unpack3, Except.ok.injEq, Prod.mk.injEq] at he
    obtain ⟨h1, h2, h3⟩ := he
    rw [h1, h2, h3]
  | [], he => exact Except.noConfusion he
  | [a], he => exact Except.noConfusion he
  | [a, b], he => exact Except.noConfusion he
  | a :: b :: d :: e :: t, he => exact Except.noConfusion he

theorem unpack3_len {l : List Nat} (hl : l.length ≠ 3) :
    unpack3 l = Except.error (PyErr.valueError shapeUnpackMsg) := by
  match l with
  | [] => rfl
  | [a] => rfl
  | [a, b] => rfl
  | [a, b, d] => exact absurd rfl hl
  | a :: b :: d :: e :: t => rfl

theorem readLoopAux_ok_shape (src : Nat → Option NDArray) (clock : Nat → Rat)
    (start : Rat) (timeout : Option Rat) :
    ∀ (fuel i : Nat) (fr : Frame),
      readLoopAux src clock start timeout fuel i
        = ReadOutcome.result (Except.ok fr) →
      fr.data.shape = [fr.height, fr.width, fr.channels] := by
  intro fuel
  induction fuel with
  | zero => intro i fr hfr; exact ReadOutcome.noConfusion hfr
  | succ k ih =>
    intro i fr hfr
    rw [readLoopAux] at hfr
    cases hsrc : src i with
    | some buf =>
      simp only [hsrc] at hfr
      cases hu : unpack3 buf.shape with
      | error e =>
        simp only [hu] at hfr
        exact Except.noConfusion (ReadOutcome.result.inj hfr)
      | ok t =>
        obtain ⟨h, w, c⟩ := t
        simp only [hu] at hfr
        have hfr2 := Except.ok.inj (ReadOutcome.result.inj hfr)
        rw [← hfr2]
        exact unpack3_ok hu
    | none =>
      simp only [hsrc] at hfr
      by_cases ht : shouldTimeout timeout (clock i - start) = true
      · rw [if_pos ht] at hfr
        exact Except.noConfusion (ReadOutcome.result.inj hfr)
      · rw [if_neg ht] at hfr
        exact ih (i + 1) fr hfr

theorem readLoopAux_no_frame_null_timeout (src : Nat → Option NDArray)
    (clock : Nat → Rat) (start : Rat) (hsrc : ∀ j, src j = none) :
    ∀ (fuel i : Nat),
      readLoopAux src clock start none fuel i = ReadOutcome.running := by
  intro fuel
  induction fuel with
  | zero => intro i; rfl
  | succ k ih =>
    intro i
    rw [readLoopAux, hsrc i]
    show (if shouldTimeout none (clock i - start) = true then _ else _) = _
    rw [if_neg (by simp [shouldTimeout])]
    exact ih (i + 1)

/-! Claim theorems. -/

/-- C1: the claim says `set_config` never echoes back an unhonored request:
the returned `applied` must differ from the request on every field the
backend cannot support. The code violates this: on an open camera whose
capabilities advertise `roi_supported = false`, no rotation handling and a
fixed resolution list, `set_config` of a request with an unsupported
resolution (123×45), a 90° rotation and an ROI returns exactly the
unmodified request and stores it as `current_config`. -/
theorem set_config_echoes_unsupported_request :
    (openedCam.set_config unsupportedReq).2 = Except.ok unsupportedReq
    ∧ (openedCam.set_config unsupportedReq).1.current_config = unsupportedReq
    ∧ openedCam.capabilities = Except.ok openCVCaps
    ∧ openCVCaps.roi_supported = false
    ∧ unsupportedReq.roi_norm ≠ none
    ∧ unsupportedReq.rotation_deg ≠ 0
    ∧ (unsupportedReq.resolution.width, unsupportedReq.resolution.height)
        ∉ openCVCaps.resolutions := by
  refine ⟨rfl, rfl, rfl, rfl, ?_, ?_, ?_⟩ <;> decide

/-- C3: the claim says `set_config` signals a state error in every reachable
state whose device handle is not open, in particular after a failed `open`,
and that a failed `set_config` leaves `current_config` unchanged. The code
violates this: a failed `open` leaves the dead (truthy) handle in
`self._capture`, so the `if not self._capture` guard passes and `set_config`
silently succeeds and overwrites `current_config`. -/
theorem set_config_after_failed_open_no_state_error :
    ((OpenCVCamera.init 0).openDev false none).2
      = Except.error (PyErr.cameraOpenError openFailMsg)
    ∧ failedOpenCam.is_open = false
    ∧ failedOpenCam._capture = some { opened := false }
    ∧ (failedOpenCam.set_config unsupportedReq).2 = Except.ok unsupportedReq
    ∧ (failedOpenCam.set_config unsupportedReq).1.current_config = unsupportedReq
    ∧ unsupportedReq ≠ failedOpenCam.current_config := by
  refine ⟨rfl, rfl, rfl, rfl, rfl, ?_⟩
  decide

/-- C4: the claim says a failed `open` leaves the backend observably
indistinguishable from a never-opened backend, with `set_config`,
`capabilities`, `flush` and `capture` behaving exactly as in the `Closed`
state. The code violates this: after the failed `open` (which does signal
the open failure and leaves the open flag false), `capabilities()` returns
the capability dictionary instead of a state error, and `flush()` issues 5
`grab()` calls instead of none, because the dead handle remains in
`self._capture`. -/
theorem failed_open_observably_distinguishable :
    ((OpenCVCamera.init 0).openDev false none).2
      = Except.error (PyErr.cameraOpenError openFailMsg)
    ∧ failedOpenCam.is_open = false
    ∧ failedOpenCam.capabilities = Except.ok openCVCaps
    ∧ (OpenCVCamera.init 0).capabilities
        = Except.error (PyErr.cameraStateError notOpenMsg)
    ∧ failedOpenCam.flush = 5
    ∧ (OpenCVCamera.init 0).flush = 0 :=
  ⟨rfl, rfl, rfl, rfl, rfl, rfl⟩

/-- C5: after `set_config(req)` returns `applied`, `current_config` equals
`applied` exactly, and calling `set_config(applied)` again returns `applied`
and changes nothing (fixed point after one application). Holds for every
state that passes the handle guard — in particular every open backend. -/
theorem set_config_roundtrip (s : OpenCVCamera) (req : CameraConfig)
    (hc : s._capture ≠ none) :
    ∃ applied,
      (s.set_config req).2 = Except.ok applied
      ∧ (s.set_config req).1.current_config = applied
      ∧ ((s.set_config req).1.set_config applied).2 = Except.ok applied
      ∧ ((s.set_config req).1.set_config applied).1 = (s.set_config req).1 := by
  match h : s._capture with
  | none => exact absurd h hc
  | some vc =>
    refine ⟨req, ?_, ?_, ?_, ?_⟩ <;>
      simp [OpenCVCamera.set_config, h]

/-- C5 witness: the round-trip property applied to a concretely opened
camera and the default configuration request. -/
theorem set_config_roundtrip_witness :
    ∃ applied,
      (openedCam.set_config CameraConfig.mkDefault).2 = Except.ok applied
      ∧ (openedCam.set_config CameraConfig.mkDefault).1.current_config = applied
      ∧ ((openedCam.set_config CameraConfig.mkDefault).1.set_config applied).2
          = Except.ok applied
      ∧ ((openedCam.set_config CameraConfig.mkDefault).1.set_config applied).1
          = (openedCam.set_config CameraConfig.mkDefault).1 :=
  set_config_roundtrip openedCam CameraConfig.mkDefault (by decide)

/-- C6: `close()`, from any state, signals no error (its body is a total
state-to-state function with no raise path), releases the handle, clears
the open and streaming flags (the effect of `stop_stream` is included in the
single teardown: closing after `stop_stream` gives the same state), and
repeating the call any number of times changes nothing. -/
theorem close_total_idempotent (s : OpenCVCamera) (n : Nat) :
    (OpenCVCamera.close s)._capture = none
    ∧ (OpenCVCamera.close s).is_open = false
    ∧ (OpenCVCamera.close s).is_streaming = false
    ∧ OpenCVCamera.close s = OpenCVCamera.close (OpenCVCamera.stop_stream s)
    ∧ OpenCVCamera.close^[n + 1] s = OpenCVCamera.close s := by
  refine ⟨rfl, rfl, rfl, rfl, ?_⟩
  rw [Function.iterate_succ_apply]
  exact Function.iterate_fixed rfl n

/-- C2 counterexample: the claim covers the case where the timeout argument
is absent (not supplied), but the source default is `timeout=2.0`, not
`None`: against a source that never produces a frame and a monotonic clock
advancing one second per retry, `read` with its default timeout signals the
timeout condition — it neither blocks indefinitely nor avoids the timeout
signal. -/
theorem read_default_timeout_times_out :
    streamingCam.read (fun _ => none) (fun i => (i : Rat)) readDefaultTimeout 5
      = ReadOutcome.result (Except.error (PyErr.cameraTimeout readTimeoutMsg)) := by
  norm_num [OpenCVCamera.read, readLoopAux, shouldTimeout, streamingCam,
    openedCam, OpenCVCamera.openDev, OpenCVCamera.start_stream,
    readDefaultTimeout, OpenCVCamera.init]
  intro h
  exact Option.noConfusion h

/-- C2 (amended): when `read` is called with the timeout argument explicitly
null (`None`), it blocks indefinitely, retrying the underlying capture
primitive, against a source that never produces a frame, and never signals a
timeout condition: for every fuel bound the retry loop is still running. -/
theorem read_null_timeout_blocks (cam : OpenCVCamera)
    (src : Nat → Option NDArray) (clock : Nat → Rat) (fuel : Nat)
    (hs : cam.is_streaming = true) (hc : cam._capture ≠ none)
    (hsrc : ∀ j, src j = none) :
    cam.read src clock none fuel = ReadOutcome.running := by
  rw [OpenCVCamera.read, if_neg]
  · exact readLoopAux_no_frame_null_timeout src clock (clock 0) hsrc fuel 1
  · rintro (h | h)
    · rw [h] at hs; exact Bool.noConfusion hs
    · exact hc h

/-- C2 witness: the null-timeout blocking behavior at a concretely streaming
camera, a never-producing source and fuel 9. -/
theorem read_null_timeout_blocks_witness :
    streamingCam.read (fun _ => none) (fun i => (i : Rat)) none 9
      = ReadOutcome.running :=
  read_null_timeout_blocks streamingCam (fun _ => none) (fun i => (i : Rat)) 9
    rfl (by decide) (fun _ => rfl)

/-- C7: in every state whose streaming flag is false — closed, open but
never started, or already stopped — `read` signals a state error
immediately: the result is the same for every source, clock, timeout and
fuel, so no capture attempt is made, nothing blocks and no timeout is ever
signalled. -/
theorem read_not_streaming_state_error (s : OpenCVCamera)
    (src : Nat → Option NDArray) (clock : Nat → Rat) (timeout : Option Rat)
    (fuel : Nat) (h : s.is_streaming = false) :
    s.read src clock timeout fuel
      = ReadOutcome.result (Except.error (PyErr.cameraStateError notStreamingMsg)) := by
  rw [OpenCVCamera.read, if_pos (Or.inl h)]

/-- C7 witness: `read` on a concretely open-but-idle camera, against a
source that would produce a frame at once, still signals the state error. -/
theorem read_not_streaming_state_error_witness :
    openedCam.read (fun _ => some { shape := [480, 640, 3] })
        (fun i => (i : Rat)) (some 2) 100
      = ReadOutcome.result (Except.error (PyErr.cameraStateError notStreamingMsg)) :=
  read_not_streaming_state_error openedCam
    (fun _ => some { shape := [480, 640, 3] }) (fun i => (i : Rat)) (some 2)
    100 rfl

/-- C8: when the configured driver key does not resolve to a class in
the module environment, `CameraFactory.create` raises an error outside the
contract's own camera-error taxonomy and invokes no driver constructor; and
every instance it does return has passed the `isinstance(_, CameraInterface)`
conformance check. -/
theorem camera_factory_create_contract (env : PyEnv) (key : String) :
    (resolves env key = none →
      (CameraFactory.create env key).1 = 0
      ∧ ∃ e, (CameraFactory.create env key).2 = Except.error e
          ∧ e.isCameraError = false)
    ∧ ∀ obj, (CameraFactory.create env key).2 = Except.ok obj →
        obj.cls.isCameraInterface = true := by
  constructor
  · intro hres
    rcases hk : rsplitDot1 key with _ | ⟨a, _ | ⟨b, _ | ⟨d, t⟩⟩⟩
    · simp [CameraFactory.create, hk, PyErr.isCameraError]
    · simp [CameraFactory.create, hk, PyErr.isCameraError]
    · simp only [resolves, hk] at hres
      rcases hm : env.modules a with _ | m
      · simp [CameraFactory.create, hk, hm, PyErr.isCameraError]
      · simp only [hm] at hres
        rcases ha : m.attrs b with _ | cls
        · simp [CameraFactory.create, hk, hm, ha, PyErr.isCameraError]
        · rw [ha] at hres
          exact Option.noConfusion hres
    · simp [CameraFactory.create, hk, PyErr.isCameraError]
  · intro obj hobj
    rcases hk : rsplitDot1 key with _ | ⟨a, _ | ⟨b, _ | ⟨d, t⟩⟩⟩ <;>
      simp only [CameraFactory.create, hk] at hobj
    · exact Except.noConfusion hobj
    · exact Except.noConfusion hobj
    · rcases hm : env.modules a with _ | m <;> simp only [hm] at hobj
      · exact Except.noConfusion hobj
      · rcases ha : m.attrs b with _ | cls <;> simp only [ha] at hobj
        · exact Except.noConfusion hobj
        · by_cases hflag : cls.isCameraInterface = false
          · rw [if_pos hflag] at hobj
            exact Except.noConfusion hobj
          · rw [if_neg hflag] at hobj
            rw [← Except.ok.inj hobj]
            exact Bool.not_eq_false _ |>.mp hflag
    · exact Except.noConfusion hobj

/-- C8 witness: in an environment where no module resolves, creating the
configured OpenCV driver key signals a non-camera error and constructs
nothing. -/
theorem camera_factory_create_contract_witness :
    (CameraFactory.create emptyEnv ACTIVE_CAMERA_DRIVER).1 = 0
    ∧ ∃ e, (CameraFactory.create emptyEnv ACTIVE_CAMERA_DRIVER).2
        = Except.error e ∧ e.isCameraError = false :=
  (camera_factory_create_contract emptyEnv ACTIVE_CAMERA_DRIVER).1 (by decide)

/-- C10: `read` and `capture` destructure the captured buffer's shape into
exactly (height, width, channels): on a streaming, open camera, a buffer
whose shape is not three-dimensional makes both operations fail with a
`ValueError` that is outside the camera error taxonomy (neither state error
nor timeout), and every frame either operation returns was built from a
buffer whose shape is exactly `[height, width, channels]`. -/
theorem frame_requires_three_dim_buffer (cam : OpenCVCamera) (buf : NDArray)
    (src : Nat → Option NDArray) (clock : Nat → Rat) (timeout : Option Rat)
    (fuel : Nat) (now : Rat)
    (hs : cam.is_streaming = true) (hc : cam._capture ≠ none)
    (ho : cam.is_open = true) (hshape : buf.shape.length ≠ 3) :
    cam.read (fun _ => some buf) clock timeout (fuel + 1)
      = ReadOutcome.result (Except.error (PyErr.valueError shapeUnpackMsg))
    ∧ cam.capture1 (some buf) now = Except.error (PyErr.valueError shapeUnpackMsg)
    ∧ (PyErr.valueError shapeUnpackMsg).isCameraError = false
    ∧ (∀ fr, cam.read src clock timeout fuel = ReadOutcome.result (Except.ok fr) →
        fr.data.shape = [fr.height, fr.width, fr.channels])
    ∧ (∀ b fr, cam.capture1 (some b) now = Except.ok fr →
        b.shape = [fr.height, fr.width, fr.channels]) := by
  have hguard : ¬(cam.is_streaming = false ∨ cam._capture = none) := by
    rintro (h | h)
    · rw [h] at hs; exact Bool.noConfusion hs
    · exact hc h
  have hguard2 : ¬(cam.is_open = false ∨ cam._capture = none) := by
    rintro (h | h)
    · rw [h] at ho; exact Bool.noConfusion ho
    · exact hc h
  refine ⟨?_, ?_, rfl, ?_, ?_⟩
  · rw [OpenCVCamera.read, if_neg hguard, readLoopAux]
    simp only [unpack3_len hshape]
  · rw [OpenCVCamera.capture1, if_neg hguard2]
    simp only [unpack3_len hshape]
  · intro fr hfr
    rw [OpenCVCamera.read, if_neg hguard] at hfr
    exact readLoopAux_ok_shape src clock (clock 0) timeout fuel 1 fr hfr
  · intro b fr hfr
    rw [OpenCVCamera.capture1, if_neg hguard2] at hfr
    cases hu : unpack3 b.shape with
    | error e =>
      simp only [hu] at hfr
      exact Except.noConfusion hfr
    | ok t =>
      obtain ⟨h, w, c⟩ := t
      simp only [hu] at hfr
      rw [← Except.ok.inj hfr]
      exact unpack3_ok hu

/-- C10 witness: on the concretely streaming camera, a two-dimensional
(grayscale) 480×640 buffer makes `read` and `capture` fail with the
out-of-taxonomy `ValueError`, while frames built from three-dimensional buffers
carry exactly the destructured shape. -/
theorem frame_requires_three_dim_buffer_witness :
    streamingCam.read (fun _ => some { shape := [480, 640] })
        (fun i => (i : Rat)) readDefaultTimeout 4
      = ReadOutcome.result (Except.error (PyErr.valueError shapeUnpackMsg))
    ∧ streamingCam.capture1 (some { shape := [480, 640] }) 0
        = Except.error (PyErr.valueError shapeUnpackMsg)
    ∧ (PyErr.valueError shapeUnpackMsg).isCameraError = false
    ∧ (∀ fr, streamingCam.read (fun _ => some { shape := [480, 640, 3] })
          (fun i => (i : Rat)) readDefaultTimeout 3
          = ReadOutcome.result (Except.ok fr) →
        fr.data.shape = [fr.height, fr.width, fr.channels])
    ∧ (∀ b fr, streamingCam.capture1 (some b) 0 = Except.ok fr →
        b.shape = [fr.height, fr.width, fr.channels]) :=
  frame_requires_three_dim_buffer streamingCam { shape := [480, 640] }
    (fun _ => some { shape := [480, 640, 3] }) (fun i => (i : Rat))
    readDefaultTimeout 3 0 rfl (by decide) rfl (by decide)

/-- C9: `stop_stream` is total over all states — its body is a bare flag
assignment with no guard and no raise path — so called while closed or
open-idle it succeeds silently; it clears the streaming flag and changes
nothing else. -/
theorem stop_stream_total_noop (s : OpenCVCamera) :
    (OpenCVCamera.stop_stream s).is_streaming = false
    ∧ (OpenCVCamera.stop_stream s).device_index = s.device_index
    ∧ (OpenCVCamera.stop_stream s)._capture = s._capture
    ∧ (OpenCVCamera.stop_stream s).is_open = s.is_open
    ∧ (OpenCVCamera.stop_stream s).current_config = s.current_config :=
  ⟨rfl, rfl, rfl, rfl, rfl⟩

end CameraSpec
